import Mathlib

/-!
Shallow embedding of the audio-to-decision pipeline of `app.py`
(child-speech depression detection).

Probabilities and confidences are modelled as exact rationals; the Python
two-argument `round(x, 2)` is modelled as rounding `x * 100` to the nearest
integer with ties to even (the Python rounding mode on exact values) and
dividing by 100.
-/

namespace DepressionApp

/-- Round a rational to the nearest integer, ties to even
(the semantics of the Python builtin `round` on exact values). -/
def roundHalfEven (q : ℚ) : ℤ :=
  if q - ⌊q⌋ < 1/2 then ⌊q⌋
  else if 1/2 < q - ⌊q⌋ then ⌊q⌋ + 1
  else if ⌊q⌋ % 2 = 0 then ⌊q⌋ else ⌊q⌋ + 1

/-- The Python `round(q, 2)`: round to 2 decimal places, ties to even. -/
def round2 (q : ℚ) : ℚ :=
  (roundHalfEven (q * 100) : ℚ) / 100

/-- `app.py` line 136:
`confidence_score = round(proba[1] * 100, 2) if len(proba) > 1 else round(proba[0] * 100, 2)`. -/
def confidence_score (proba : List ℚ) : ℚ :=
  if 1 < proba.length then round2 (proba.getD 1 0 * 100)
  else round2 (proba.getD 0 0 * 100)

/-- `app.py` line 137:
`result_label = "Depressed" if prediction[0] == 1 else "Not Depressed"`. -/
def result_label (prediction0 : ℤ) : String :=
  if prediction0 = 1 then "Depressed" else "Not Depressed"

/-- One entry of `st.session_state.history`: the label together with the
confidence value interpolated into the stored string. -/
structure HistoryEntry where
  label : String
  confidence : ℚ
deriving DecidableEq

/-- The report produced by `generate_pdf_report` (`app.py` lines 88-106):
the prediction result, the confidence written after `Confidence Score:`,
and the advisory text written after `Note:`. -/
structure PdfReport where
  result : String
  confidence : ℚ
  advice : String
deriving DecidableEq

/-- `app.py` lines 88-106. The advice string is
`"Please consult a professional if this is a real concern."` when
`prediction_label == "Depressed"`, else
`"Voice sounds healthy. Keep monitoring regularly."`. -/
def generate_pdf_report (prediction_label : String) (confidence : ℚ) : PdfReport :=
  { result := prediction_label
    confidence := confidence
    advice :=
      if prediction_label = "Depressed" then
        "Please consult a professional if this is a real concern."
      else
        "Voice sounds healthy. Keep monitoring regularly." }

/-- Everything one run of the result-display block (`app.py` lines 136-160)
delivers: the decided label, the confidence percentage shown on screen, the
advisory sentence shown on screen, the session history after the append, and
the PDF report produced by the call
`generate_pdf_report(result_label, confidence_score)`. -/
structure DecisionOutcome where
  label : String
  shownConfidence : ℚ
  advisory : String
  historyAfter : List HistoryEntry
  report : PdfReport
deriving DecidableEq

/-- `app.py` lines 136-160: compute `confidence_score` and `result_label`,
branch on `prediction[0] == 1` for the on-screen display and the history
append (`Depressed ({confidence_score}%)` in the depressed branch,
`Not Depressed ({100 - confidence_score}%)` in the other), then build the
PDF report from `result_label` and the raw `confidence_score`. -/
def decision_step (history : List HistoryEntry) (prediction0 : ℤ)
    (proba : List ℚ) : DecisionOutcome :=
  if prediction0 = 1 then
    { label := result_label prediction0
      shownConfidence := confidence_score proba
      advisory := "Please consult a professional if this is a real concern."
      historyAfter := history ++ [⟨"Depressed", confidence_score proba⟩]
      report := generate_pdf_report (result_label prediction0) (confidence_score proba) }
  else
    { label := result_label prediction0
      shownConfidence := 100 - confidence_score proba
      advisory := "The voice sounds healthy and normal."
      historyAfter := history ++ [⟨"Not Depressed", 100 - confidence_score proba⟩]
      report := generate_pdf_report (result_label prediction0) (confidence_score proba) }

/-- Modelled from the spec: the sample offset selected by
`librosa.load(file, sr=None, duration=3, offset=0.5)` (`app.py` line 80).
The decode semantics live in the librosa library, outside this repository;
the spec fixes a window starting 0.5 seconds into the clip, which at sample
rate `sr` is `round(0.5 * sr)` samples. -/
def offset_samples (sr : ℕ) : ℕ :=
  (roundHalfEven ((sr : ℚ) / 2)).toNat

/-- Modelled from the spec: `librosa.load(file, sr=None, duration=3, offset=0.5)`
(`app.py` line 80). Decode at the native sample rate (`sr=None`, no
resampling), then return the samples of the 3-second window starting 0.5
seconds into the clip; a clip shorter than 3.5 seconds yields whatever
samples remain after the offset. -/
def load_audio (samples : List ℚ) (sr : ℕ) : List ℚ × ℕ :=
  ((samples.drop (offset_samples sr)).take (3 * sr), sr)

/-- The arithmetic mean of a list of rationals (`numpy` row mean). -/
def listMean (l : List ℚ) : ℚ := l.sum / l.length

/-- `extract_features` (`app.py` lines 78-85). The fallible part (decode plus
the MFCC computation, both delegated to librosa) is passed in as an `Except`:
on success the 13-row MFCC matrix is averaged along axis 1
(`mfcc.mean(axis=1)`); on failure `st.error(f"Audio Error: {e}")` is shown
and `None` is returned. -/
def extract_features (computation : Except String (List (List ℚ))) :
    Option (List ℚ) × Option String :=
  match computation with
  | Except.ok m => (some (m.map listMean), none)
  | Except.error e => (none, some ("Audio Error: " ++ e))

/-- One history entry as a pure function of one decision input
(raw label and probability list). -/
def entry_of (d : ℤ × List ℚ) : HistoryEntry :=
  if d.1 = 1 then ⟨"Depressed", confidence_score d.2⟩
  else ⟨"Not Depressed", 100 - confidence_score d.2⟩

/-- The history update performed by one decision (`app.py` lines 148 and 157). -/
def session_step (history : List HistoryEntry) (d : ℤ × List ℚ) : List HistoryEntry :=
  (decision_step history d.1 d.2).historyAfter

/-- The session history after a sequence of successful decisions, starting
from the empty history (`app.py` lines 71-72). -/
def run_session (decisions : List (ℤ × List ℚ)) : List HistoryEntry :=
  decisions.foldl session_step []

/-- The presentation order of the history display loop
(`app.py` line 166: `st.session_state.history[::-1]`). -/
def display_history (history : List HistoryEntry) : List HistoryEntry :=
  history.reverse

/-- The observable outcome of one pass through the prediction block
(`app.py` lines 109-160): the decision (if any), whether the classifier was
invoked, and the error message shown (if any). -/
structure PipelineResult where
  decision : Option DecisionOutcome
  classifierInvoked : Bool
  errorShown : Option String
deriving DecidableEq

/-- The prediction block (`app.py` lines 109-160): run `extract_features`;
only under the `features is not None` guard (line 114) call `model.predict`
and `model.predict_proba` (lines 134-135) and produce a decision. -/
def run_prediction_block (computation : Except String (List (List ℚ)))
    (predict : List ℚ → ℤ) (predict_proba : List ℚ → List ℚ)
    (history : List HistoryEntry) : PipelineResult :=
  match extract_features computation with
  | (some f, _) =>
      { decision := some (decision_step history (predict f) (predict_proba f))
        classifierInvoked := true
        errorShown := none }
  | (none, err) =>
      { decision := none
        classifierInvoked := false
        errorShown := err }

/-! ## Helper lemmas -/

lemma roundHalfEven_nonneg (q : ℚ) (hq : 0 ≤ q) : 0 ≤ roundHalfEven q := by
  have hf : (0:ℤ) ≤ ⌊q⌋ := Int.floor_nonneg.mpr hq
  unfold roundHalfEven
  split
  · exact hf
  · split
    · omega
    · split <;> omega

lemma roundHalfEven_le_intCast (q : ℚ) (n : ℤ) (h : q ≤ (n : ℚ)) :
    roundHalfEven q ≤ n := by
  have hfl : ⌊q⌋ ≤ n := by
    have h2 : ⌊q⌋ ≤ ⌊(n : ℚ)⌋ := Int.floor_le_floor h
    simpa using h2
  unfold roundHalfEven
  split
  · exact hfl
  · rename_i hnot
    have hge : (1:ℚ)/2 ≤ q - ⌊q⌋ := le_of_not_lt hnot
    have hflq : (⌊q⌋ : ℚ) < q := by linarith
    have hlt2 : ⌊q⌋ < n := by
      have hc : (⌊q⌋ : ℚ) < (n : ℚ) := lt_of_lt_of_le hflq h
      exact_mod_cast hc
    split
    · omega
    · split <;> omega

lemma round2_nonneg (q : ℚ) (hq : 0 ≤ q) : 0 ≤ round2 q := by
  unfold round2
  have h := roundHalfEven_nonneg (q * 100) (by linarith)
  have hc : (0:ℚ) ≤ (roundHalfEven (q * 100) : ℚ) := by exact_mod_cast h
  exact div_nonneg hc (by norm_num)

lemma round2_le_100 (q : ℚ) (hq : q ≤ 100) : round2 q ≤ 100 := by
  unfold round2
  have h : q * 100 ≤ ((10000 : ℤ) : ℚ) := by push_cast; linarith
  have h2 := roundHalfEven_le_intCast (q * 100) 10000 h
  have h3 : (roundHalfEven (q * 100) : ℚ) ≤ 10000 := by exact_mod_cast h2
  rw [div_le_iff₀ (by norm_num : (0:ℚ) < 100)]
  linarith

lemma getD_mem {l : List ℚ} {n : ℕ} (h : n < l.length) (d : ℚ) :
    l.getD n d ∈ l := by
  rw [List.getD_eq_getElem?_getD, List.getElem?_eq_getElem h]
  exact List.getElem_mem h

lemma confidence_score_bounds (proba : List ℚ) (h1 : 1 ≤ proba.length)
    (hb : ∀ x ∈ proba, 0 ≤ x ∧ x ≤ 1) :
    0 ≤ confidence_score proba ∧ confidence_score proba ≤ 100 := by
  unfold confidence_score
  by_cases hlen : 1 < proba.length
  · rw [if_pos hlen]
    obtain ⟨hx0, hx1⟩ := hb _ (getD_mem hlen 0)
    exact ⟨round2_nonneg _ (by linarith), round2_le_100 _ (by linarith)⟩
  · rw [if_neg hlen]
    have h0 : 0 < proba.length := h1
    obtain ⟨hx0, hx1⟩ := hb _ (getD_mem h0 0)
    exact ⟨round2_nonneg _ (by linarith), round2_le_100 _ (by linarith)⟩

lemma confidence_eval_30 : confidence_score [7/10, 3/10] = 30 := by
  norm_num [confidence_score, round2, roundHalfEven]

lemma confidence_eval_95 : confidence_score [19/20] = 95 := by
  norm_num [confidence_score, round2, roundHalfEven]

lemma session_step_eq (h : List HistoryEntry) (d : ℤ × List ℚ) :
    session_step h d = h ++ [entry_of d] := by
  by_cases hp : d.1 = 1 <;> simp [session_step, decision_step, entry_of, hp]

lemma foldl_session_step (ds : List (ℤ × List ℚ)) :
    ∀ h : List HistoryEntry, ds.foldl session_step h = h ++ ds.map entry_of := by
  induction ds with
  | nil => intro h; simp
  | cons d ds ih => intro h; simp [List.foldl_cons, session_step_eq, ih]

/-! ## Claims -/

/-- Claim C1: for every probability sequence with at least two entries whose
values lie in [0,1], the decision confidence equals the index-1 (depressed)
probability times 100 rounded to 2 decimal places, and when the decided label
is Not Depressed the value shown to the caller and stored in history is the
complement 100 minus that confidence. -/
theorem claim_C1 (proba : List ℚ) (h2 : 2 ≤ proba.length)
    (hb : ∀ x ∈ proba, 0 ≤ x ∧ x ≤ 1) (p0 : ℤ) (hist : List HistoryEntry) :
    confidence_score proba = round2 (proba.get ⟨1, by omega⟩ * 100) ∧
    (p0 ≠ 1 →
      (decision_step hist p0 proba).label = "Not Depressed" ∧
      (decision_step hist p0 proba).shownConfidence = 100 - confidence_score proba ∧
      (decision_step hist p0 proba).historyAfter =
        hist ++ [⟨"Not Depressed", 100 - confidence_score proba⟩]) := by
  have hlt : 1 < proba.length := by omega
  constructor
  · simp [confidence_score, hlt, List.getD_eq_getElem?_getD,
      List.getElem?_eq_getElem hlt]
  · intro hp
    refine ⟨?_, ?_, ?_⟩ <;> simp [decision_step, result_label, hp]

/-- Witness for C1 at the Scenario B input: probabilities [0.7, 0.3] with raw
label 0 give label Not Depressed and displayed confidence 70. -/
theorem claim_C1_witness :
    (decision_step [] 0 [7/10, 3/10]).label = "Not Depressed" ∧
    (decision_step [] 0 [7/10, 3/10]).shownConfidence = 70 := by
  have h := claim_C1 [7/10, 3/10] (by norm_num)
    (by intro x hx; simp at hx; rcases hx with rfl | rfl <;> norm_num) 0 []
  have h2 := h.2 (by norm_num)
  refine ⟨h2.1, ?_⟩
  rw [h2.2.1, confidence_eval_30]
  norm_num

/-- Claim C2 as stated is false on the code: with the single probability
[0.95] and raw label 0 the caller is shown the complement 5, not 95. -/
theorem claim_C2_counterexample :
    (decision_step [] 0 [19/20]).label = "Not Depressed" ∧
    (decision_step [] 0 [19/20]).shownConfidence = 5 ∧
    (decision_step [] 0 [19/20]).shownConfidence ≠ 95 := by
  have h5 : (decision_step [] 0 [19/20]).shownConfidence = 5 := by
    simp [decision_step]
    rw [confidence_eval_95]
    norm_num
  refine ⟨by simp [decision_step, result_label], h5, by rw [h5]; norm_num⟩

/-- Claim C2 amended: for a probability sequence of length exactly 1,
`confidence_score` is that single value as a percentage, but the value
reported to the caller equals it only when the raw label is 1; for any other
raw label the caller is shown the complement 100 minus it. -/
theorem claim_C2_amended (proba : List ℚ) (h1 : proba.length = 1)
    (hb : ∀ x ∈ proba, 0 ≤ x ∧ x ≤ 1) (p0 : ℤ) (hist : List HistoryEntry) :
    confidence_score proba = round2 (proba.get ⟨0, by omega⟩ * 100) ∧
    (p0 = 1 →
      (decision_step hist p0 proba).shownConfidence = confidence_score proba) ∧
    (p0 ≠ 1 →
      (decision_step hist p0 proba).label = "Not Depressed" ∧
      (decision_step hist p0 proba).shownConfidence = 100 - confidence_score proba) := by
  have h0 : 0 < proba.length := by omega
  have hnlt : ¬ 1 < proba.length := by omega
  refine ⟨?_, ?_, ?_⟩
  · simp [confidence_score, hnlt, List.getD_eq_getElem?_getD,
      List.getElem?_eq_getElem h0]
  · intro hp
    simp [decision_step, hp]
  · intro hp
    constructor <;> simp [decision_step, result_label, hp]

/-- Witness for the amended C2: the single probability [0.95] with raw label 1
is reported as 95. -/
theorem claim_C2_amended_witness :
    (decision_step [] 1 [19/20]).shownConfidence = 95 := by
  have h := claim_C2_amended [19/20] rfl
    (by intro x hx; simp at hx; subst hx; norm_num) 1 []
  rw [h.2.1 rfl, confidence_eval_95]

/-- Claim C3 as stated is false on the code: for the label Not Depressed the
advisory text shown in the decision display and the advisory text embedded in
the rendered report are different strings. -/
theorem claim_C3_counterexample :
    (decision_step [] 0 [1/2, 1/2]).advisory ≠
      (decision_step [] 0 [1/2, 1/2]).report.advice := by
  simp [decision_step, generate_pdf_report, result_label]

/-- Claim C3 amended: both advisory texts are pure functions of the label and
they agree for the label Depressed, but for any other raw label the display
says "The voice sounds healthy and normal." while the report says
"Voice sounds healthy. Keep monitoring regularly.". -/
theorem claim_C3_amended (p0 : ℤ) (proba : List ℚ) (hist : List HistoryEntry) :
    (p0 = 1 →
      (decision_step hist p0 proba).advisory =
        (decision_step hist p0 proba).report.advice ∧
      (decision_step hist p0 proba).advisory =
        "Please consult a professional if this is a real concern.") ∧
    (p0 ≠ 1 →
      (decision_step hist p0 proba).advisory =
        "The voice sounds healthy and normal." ∧
      (decision_step hist p0 proba).report.advice =
        "Voice sounds healthy. Keep monitoring regularly.") := by
  constructor
  · intro hp
    constructor <;> simp [decision_step, generate_pdf_report, result_label, hp]
  · intro hp
    constructor <;> simp [decision_step, generate_pdf_report, result_label, hp]

/-- Witness for the amended C3 at raw labels 1 and 0. -/
theorem claim_C3_amended_witness :
    (decision_step [] 1 [1/2, 1/2]).advisory =
      (decision_step [] 1 [1/2, 1/2]).report.advice ∧
    (decision_step [] 0 [1/2, 1/2]).advisory =
      "The voice sounds healthy and normal." :=
  ⟨((claim_C3_amended 1 [1/2, 1/2] []).1 rfl).1,
   ((claim_C3_amended 0 [1/2, 1/2] []).2 (by norm_num)).1⟩

/-- Claim C4: for a binary probability sequence with decided label
Not Depressed, the confidence written into the rendered PDF report is the raw
`confidence_score`, while the screen and the history show the complement; the
two output boundaries disagree by exactly 100 - 2 * confidence_score. -/
theorem claim_C4 (p0 : ℤ) (proba : List ℚ) (hist : List HistoryEntry)
    (hp : p0 ≠ 1) (h2 : proba.length = 2) :
    (decision_step hist p0 proba).report.confidence = confidence_score proba ∧
    (decision_step hist p0 proba).shownConfidence = 100 - confidence_score proba ∧
    (decision_step hist p0 proba).historyAfter =
      hist ++ [⟨"Not Depressed", 100 - confidence_score proba⟩] ∧
    (decision_step hist p0 proba).shownConfidence -
      (decision_step hist p0 proba).report.confidence =
      100 - 2 * confidence_score proba := by
  refine ⟨?_, ?_, ?_, ?_⟩ <;>
    simp [decision_step, generate_pdf_report, result_label, hp]
  ring

/-- Witness for C4: probabilities [0.7, 0.3] with raw label 0 put 30 in the
PDF while the screen shows 70. -/
theorem claim_C4_witness :
    (decision_step [] 0 [7/10, 3/10]).report.confidence = 30 ∧
    (decision_step [] 0 [7/10, 3/10]).shownConfidence = 70 := by
  have h := claim_C4 0 [7/10, 3/10] [] (by norm_num) rfl
  exact ⟨h.1.trans confidence_eval_30,
    by rw [h.2.1, confidence_eval_30]; norm_num⟩

/-- Claim C5: the label mapping is total and binary over all raw labels: the
decided label is Depressed exactly when the raw label is 1, and Not Depressed
for every other value; no third label value is ever produced. -/
theorem claim_C5 (p0 : ℤ) :
    (result_label p0 = "Depressed" ↔ p0 = 1) ∧
    (result_label p0 = "Depressed" ∨ result_label p0 = "Not Depressed") := by
  by_cases hp : p0 = 1 <;> simp [result_label, hp]

/-- Witness for C5 at the raw label 5: the label is Not Depressed. -/
theorem claim_C5_witness : result_label 5 = "Not Depressed" := by
  have h := claim_C5 5
  rcases h.2 with hd | hn
  · exact absurd (h.1.mp hd) (by norm_num)
  · exact hn

/-- Claim C6: the loader decodes at the native sample rate (no resampling) and
returns the 3-second window starting 0.5 seconds into the clip; a 5-second
clip at 22050 Hz yields exactly 66150 samples, and a clip shorter than 3.5
seconds yields whatever samples remain after the offset rather than failing. -/
theorem claim_C6 (samples : List ℚ) (sr : ℕ) :
    (load_audio samples sr).2 = sr ∧
    (load_audio samples sr).1.length =
      min (3 * sr) (samples.length - offset_samples sr) ∧
    (sr = 22050 → samples.length = 110250 →
      (load_audio samples sr).1.length = 66150) ∧
    (samples.length ≤ offset_samples sr + 3 * sr →
      (load_audio samples sr).1 = samples.drop (offset_samples sr)) := by
  refine ⟨rfl, ?_, ?_, ?_⟩
  · simp [load_audio]
  · intro hsr hlen
    subst hsr
    have hoff : offset_samples 22050 = 11025 := by
      norm_num [offset_samples, roundHalfEven]
      omega
    simp [load_audio, hoff, hlen]
  · intro hle
    have hlen : (samples.drop (offset_samples sr)).length ≤ 3 * sr := by
      simp only [List.length_drop]
      omega
    simp [load_audio, List.take_of_length_le hlen]

/-- Witness for C6: a 5-second clip at 22050 Hz (110250 samples) yields a
buffer of exactly 66150 samples. -/
theorem claim_C6_witness :
    (load_audio (List.replicate 110250 (0:ℚ)) 22050).1.length = 66150 := by
  have h := claim_C6 (List.replicate 110250 (0:ℚ)) 22050
  exact h.2.2.1 rfl (List.length_replicate 110250 0)

/-- Claim C7: whenever feature extraction succeeds on a 13-row MFCC matrix,
the feature vector has length exactly 13 and its entry i is the arithmetic
mean of row i of the matrix (the i-th coefficient across all time frames). -/
theorem claim_C7 (m : List (List ℚ)) (h13 : m.length = 13) :
    (extract_features (Except.ok m)).1 = some (m.map listMean) ∧
    (m.map listMean).length = 13 ∧
    ∀ i : ℕ, (m.map listMean)[i]? = (m[i]?).map listMean := by
  exact ⟨rfl, by simp [h13], fun i => by simp⟩

/-- Witness for C7 on a concrete 13-row matrix of single-frame rows. -/
theorem claim_C7_witness :
    (extract_features (Except.ok (List.replicate 13 [(1:ℚ)]))).1 =
      some ((List.replicate 13 [(1:ℚ)]).map listMean) ∧
    ((List.replicate 13 [(1:ℚ)]).map listMean).length = 13 ∧
    ((List.replicate 13 [(1:ℚ)]).map listMean)[0]? = some 1 := by
  have h := claim_C7 (List.replicate 13 [(1:ℚ)]) (by simp)
  refine ⟨h.1, h.2.1, ?_⟩
  rw [h.2.2 0]
  norm_num [listMean]

/-- Claim C8: after N successful decisions in one session the history has
exactly N entries in insertion order (the i-th entry comes from the i-th
decision, newest last); the display step is exactly a reversal of the stored
sequence and leaves the storage untouched. -/
theorem claim_C8 (ds : List (ℤ × List ℚ)) :
    (run_session ds).length = ds.length ∧
    run_session ds = ds.map entry_of ∧
    display_history (run_session ds) = (ds.map entry_of).reverse := by
  have h : run_session ds = ds.map entry_of := by
    simpa [run_session] using foldl_session_step ds []
  exact ⟨by rw [h]; simp, h, by rw [display_history, h]⟩

/-- Witness for C8: two decisions leave exactly two entries. -/
theorem claim_C8_witness :
    (run_session [((1:ℤ), [(1:ℚ)]), ((0:ℤ), [(1:ℚ)])]).length = 2 :=
  (claim_C8 [((1:ℤ), [(1:ℚ)]), ((0:ℤ), [(1:ℚ)])]).1.trans rfl

/-- Claim C9: when decoding or feature extraction fails, the pipeline aborts
before any classification attempt: the classifier is never invoked, no
decision is produced, and the error message is surfaced to the caller. -/
theorem claim_C9 (e : String) (predict : List ℚ → ℤ)
    (predict_proba : List ℚ → List ℚ) (history : List HistoryEntry) :
    (run_prediction_block (Except.error e) predict predict_proba history).decision
      = none ∧
    (run_prediction_block (Except.error e) predict predict_proba history).classifierInvoked
      = false ∧
    (run_prediction_block (Except.error e) predict predict_proba history).errorShown
      = some ("Audio Error: " ++ e) :=
  ⟨rfl, rfl, rfl⟩

/-- Witness for C9 on a concrete failing decode. -/
theorem claim_C9_witness :
    (run_prediction_block (Except.error "bad file")
      (fun _ => 0) (fun _ => []) []).classifierInvoked = false :=
  (claim_C9 "bad file" (fun _ => 0) (fun _ => []) []).2.1

/-- Claim C10: for every probability sequence of length at least 1 with
entries in [0,1], the confidence delivered to the caller (including the
complement shown for Not Depressed) lies in [0, 100]. -/
theorem claim_C10 (proba : List ℚ) (h1 : 1 ≤ proba.length)
    (hb : ∀ x ∈ proba, 0 ≤ x ∧ x ≤ 1) (p0 : ℤ) (hist : List HistoryEntry) :
    0 ≤ (decision_step hist p0 proba).shownConfidence ∧
    (decision_step hist p0 proba).shownConfidence ≤ 100 := by
  obtain ⟨hc0, hc1⟩ := confidence_score_bounds proba h1 hb
  by_cases hp : p0 = 1 <;>
    simp [decision_step, hp] <;> constructor <;> linarith

/-- Witness for C10 at probabilities [0.7, 0.3] and raw label 0. -/
theorem claim_C10_witness :
    0 ≤ (decision_step [] 0 [7/10, 3/10]).shownConfidence ∧
    (decision_step [] 0 [7/10, 3/10]).shownConfidence ≤ 100 :=
  claim_C10 [7/10, 3/10] (by norm_num)
    (by intro x hx; simp at hx; rcases hx with rfl | rfl <;> norm_num) 0 []

end DepressionApp
